import Mathlib

/-
Verification of the weewx-realtime_gauge-data engine (bin/user/rtgd.py).

Values carried by loop packets are modelled as rationals (ℚ), timestamps as
integers (ℤ).  A Python value that may be None is an Option.  Python 2
comparison semantics (None compares less than every number) are modelled
explicitly where the source relies on them.
-/

namespace Rtgd

/-- Python 2 comparison on optional numbers: None is smaller than every
number, and None equals None.  This mirrors CPython 2 mixed-type ordering as
used throughout rtgd.py. -/
def py2LtOpt (a b : Option ℚ) : Bool :=
  match a, b with
  | none, none => false
  | none, some _ => true
  | some _, none => false
  | some x, some y => decide (x < y)

/-- Python 2 strict greater-than on optional numbers. -/
def py2GtOpt (a b : Option ℚ) : Bool := py2LtOpt b a

/-- Python 2 greater-or-equal on optional numbers. -/
def py2GeOpt (a b : Option ℚ) : Bool := !py2LtOpt a b

/-- Python 2 less-or-equal on optional numbers. -/
def py2LeOpt (a b : Option ℚ) : Bool := !py2GtOpt a b

/-- A loop packet as consumed by RtgdBuffer.setLowsAndHighs: dateTime plus the
observation fields the method reads, each possibly absent or None (both are
modelled as none, matching packet_d.get(obs, None)). -/
structure LoopPacket where
  dateTime : ℤ
  outTemp : Option ℚ := none
  dewpoint : Option ℚ := none
  appTemp : Option ℚ := none
  windchill : Option ℚ := none
  heatindex : Option ℚ := none
  barometer : Option ℚ := none
  rain : Option ℚ := none
  rainRate : Option ℚ := none
  outHumidity : Option ℚ := none
  UV : Option ℚ := none
  radiation : Option ℚ := none
  windSpeed : Option ℚ := none
  windDir : Option ℚ := none

/-- State of class RtgdBuffer.  The low/high pairs hold [value, ts] as in the
source ([None, None] at reset).  wind_list entries are (speed, ts);
wind_dir_list entries are (speed, direction, ts) - the source stores the
precomputed x/y components alongside speed/direction/ts, and the x/y sums are
recovered below from speed and direction (the entries are never mutated, so
the sums agree with the source's stored products). -/
structure RtgdBuffer where
  windsum : ℚ
  windcount : ℕ
  rainsum : ℚ
  tempL_loop : Option ℚ × Option ℤ
  tempH_loop : Option ℚ × Option ℤ
  dewpointL_loop : Option ℚ × Option ℤ
  dewpointH_loop : Option ℚ × Option ℤ
  apptempL_loop : Option ℚ × Option ℤ
  apptempH_loop : Option ℚ × Option ℤ
  wchillL_loop : Option ℚ × Option ℤ
  heatindexH_loop : Option ℚ × Option ℤ
  wgustM_loop : Option ℚ × Option ℚ × Option ℤ
  pressL_loop : Option ℚ × Option ℤ
  pressH_loop : Option ℚ × Option ℤ
  rrateH_loop : Option ℚ × Option ℤ
  humL_loop : Option ℚ × Option ℤ
  humH_loop : Option ℚ × Option ℤ
  windM_loop : Option ℚ × Option ℤ
  UVH_loop : Option ℚ × Option ℤ
  SolarH_loop : Option ℚ × Option ℤ
  wind_list : List (ℚ × ℤ)
  wind_dir_list : List (ℚ × ℚ × ℤ)
  wind_period : ℤ

/-- RtgdBuffer.__init__ / reset_loop_stats: sums zeroed, stats pairs
[None, None], wind lists empty, wind_period 600 seconds. -/
def initBuffer : RtgdBuffer :=
  { windsum := 0, windcount := 0, rainsum := 0,
    tempL_loop := (none, none), tempH_loop := (none, none),
    dewpointL_loop := (none, none), dewpointH_loop := (none, none),
    apptempL_loop := (none, none), apptempH_loop := (none, none),
    wchillL_loop := (none, none), heatindexH_loop := (none, none),
    wgustM_loop := (none, none, none),
    pressL_loop := (none, none), pressH_loop := (none, none),
    rrateH_loop := (none, none),
    humL_loop := (none, none), humH_loop := (none, none),
    windM_loop := (none, none),
    UVH_loop := (none, none), SolarH_loop := (none, none),
    wind_list := [], wind_dir_list := [], wind_period := 600 }

/-- Low update used in setLowsAndHighs:
[v, ts] if (v < cur[0] or cur[0] is None) else cur.
In Python 2, v < None is False for a number v, so the explicit is-None test
carries the initial case. -/
def updLow (v : ℚ) (ts : ℤ) (cur : Option ℚ × Option ℤ) : Option ℚ × Option ℤ :=
  if py2LtOpt (some v) cur.1 || cur.1 == none then (some v, some ts) else cur

/-- High update used in setLowsAndHighs: [v, ts] if v > cur[0] else cur.
In Python 2, v > None is True for a number v, so no is-None test is needed. -/
def updHigh (v : ℚ) (ts : ℤ) (cur : Option ℚ × Option ℤ) : Option ℚ × Option ℤ :=
  if py2GtOpt (some v) cur.1 then (some v, some ts) else cur

/-- Apply the low update only when the observation is present and not None. -/
def updLowOpt (v : Option ℚ) (ts : ℤ) (cur : Option ℚ × Option ℤ) :
    Option ℚ × Option ℤ :=
  match v with
  | none => cur
  | some x => updLow x ts cur

/-- Apply the high update only when the observation is present and not None. -/
def updHighOpt (v : Option ℚ) (ts : ℤ) (cur : Option ℚ × Option ℤ) :
    Option ℚ × Option ℤ :=
  match v with
  | none => cur
  | some x => updHigh x ts cur

/-- The coerced wind speed of a packet: packet_d.get('windSpeed', 0.0) followed
by windSpeed = 0.0 if windSpeed is None else windSpeed. -/
def pyWindSpeed (p : LoopPacket) : ℚ := p.windSpeed.getD 0

/-- RtgdBuffer.averageWind: arithmetic mean of the retained wind_list speeds,
0.0 when the list is empty. -/
def averageWind (wind_list : List (ℚ × ℤ)) : ℚ :=
  if 0 < wind_list.length then
    (wind_list.map Prod.fst).sum / (wind_list.length : ℚ)
  else 0

/-- RtgdBuffer.setLowsAndHighs, translated statement by statement from the
source.  Note the rain statement is the source's
rainsum += rain if rain is not None else self.rainsum
whose right-hand side is the whole conditional expression, so a None rain adds
the current rainsum to itself. -/
def setLowsAndHighs (b : RtgdBuffer) (p : LoopPacket) : RtgdBuffer :=
  let ts := p.dateTime
  let tempL := updLowOpt p.outTemp ts b.tempL_loop
  let tempH := updHighOpt p.outTemp ts b.tempH_loop
  let dewpointL := updLowOpt p.dewpoint ts b.dewpointL_loop
  let dewpointH := updHighOpt p.dewpoint ts b.dewpointH_loop
  let apptempL := updLowOpt p.appTemp ts b.apptempL_loop
  let apptempH := updHighOpt p.appTemp ts b.apptempH_loop
  let wchillL := updLowOpt p.windchill ts b.wchillL_loop
  let heatindexH := updHighOpt p.heatindex ts b.heatindexH_loop
  let pressL := updLowOpt p.barometer ts b.pressL_loop
  let pressH := updHighOpt p.barometer ts b.pressH_loop
  let rainsum :=
    match p.rain with
    | some r => b.rainsum + r
    | none => b.rainsum + b.rainsum
  let rrateH := updHighOpt p.rainRate ts b.rrateH_loop
  let humL := updLowOpt p.outHumidity ts b.humL_loop
  let humH := updHighOpt p.outHumidity ts b.humH_loop
  let uvH := updHighOpt p.UV ts b.UVH_loop
  let solarH := updHighOpt p.radiation ts b.SolarH_loop
  let windSpeed := pyWindSpeed p
  let windsum := b.windsum + windSpeed
  let windcount := b.windcount + 1
  let wgust :=
    if py2GtOpt (some windSpeed) b.wgustM_loop.1 && !(p.windDir == none) then
      (some windSpeed, p.windDir, some ts)
    else b.wgustM_loop
  let wind_list0 := b.wind_list ++ [(windSpeed, ts)]
  let old_ts := ts - b.wind_period
  let wind_list :=
    if 0 < wind_list0.length then
      wind_list0.filter fun s => decide (old_ts < s.2)
    else wind_list0
  let windM := averageWind wind_list
  let windM_loop :=
    if py2GtOpt (some windM) b.windM_loop.1 then (some windM, some ts)
    else b.windM_loop
  let wind_dir_list0 :=
    match p.windDir with
    | none => b.wind_dir_list
    | some d => b.wind_dir_list ++ [(windSpeed, d, ts)]
  let wind_dir_list :=
    if 0 < wind_dir_list0.length then
      wind_dir_list0.filter fun s => decide (old_ts < s.2.2)
    else wind_dir_list0
  { windsum := windsum, windcount := windcount, rainsum := rainsum,
    tempL_loop := tempL, tempH_loop := tempH,
    dewpointL_loop := dewpointL, dewpointH_loop := dewpointH,
    apptempL_loop := apptempL, apptempH_loop := apptempH,
    wchillL_loop := wchillL, heatindexH_loop := heatindexH,
    wgustM_loop := wgust,
    pressL_loop := pressL, pressH_loop := pressH,
    rrateH_loop := rrateH,
    humL_loop := humL, humH_loop := humH,
    windM_loop := windM_loop,
    UVH_loop := uvH, SolarH_loop := solarH,
    wind_list := wind_list, wind_dir_list := wind_dir_list,
    wind_period := b.wind_period }

/-- One cache slot of class CachedPacket: {'value': v, 'ts': t}.  The value
itself may be None (None values may be cached). -/
structure CacheEntry where
  value : Option ℚ
  ts : ℤ
deriving DecidableEq

/-- Class CachedPacket: a per-observation map of cache slots plus the cache
unit system. -/
structure CachedPacket where
  cache : List (String × CacheEntry)
  unit_system : Option ℕ

/-- Membership-and-access on the cache dictionary (obs in self.cache together
with self.cache[obs]). -/
def cacheLookup (c : List (String × CacheEntry)) (obs : String) : Option CacheEntry :=
  List.lookup obs c

/-- CachedPacket.get_value: the cached value when the observation is present
and ts - cached_ts <= max_age, otherwise None.  Total: a missing or stale
observation yields none, never an error. -/
def get_value (c : CachedPacket) (obs : String) (ts max_age : ℤ) : Option ℚ :=
  match cacheLookup c.cache obs with
  | some e => if ts - e.ts ≤ max_age then e.value else none
  | none => none

/-- The packet built by CachedPacket.get_packet: dateTime, usUnits and one
field per cached observation. -/
structure CachedLoopPacket where
  dateTime : ℤ
  usUnits : Option ℕ
  fields : List (String × Option ℚ)

/-- CachedPacket.get_packet: starts from {'dateTime': ts, 'usUnits': ...} and
fills every cached observation through get_value. -/
def get_packet (c : CachedPacket) (ts : ℤ) (max_age : ℤ) : CachedLoopPacket :=
  { dateTime := ts, usUnits := c.unit_system,
    fields := c.cache.map fun kv => (kv.1, get_value c kv.1 ts max_age) }

/-- The COMPASS_POINTS table of rtgd.py: 17 entries, with North duplicated at
both ends. -/
def COMPASS_POINTS : List String :=
  ["N", "NNE", "NE", "ENE", "E", "ESE", "SE", "SSE",
   "S", "SSW", "SW", "WSW", "W", "WNW", "NW", "NNW", "N"]

/-- Python int() on a rational: truncation toward zero. -/
def pyInt (q : ℚ) : ℤ := if 0 ≤ q then ⌊q⌋ else -⌊-q⌋

/-- Python list subscription: a negative index counts from the end; an index
out of range raises IndexError, modelled as none. -/
def pyGetItem (l : List String) (i : ℤ) : Option String :=
  let j : ℤ := if i < 0 then (l.length : ℤ) + i else i
  if 0 ≤ j ∧ j < (l.length : ℤ) then l.get? j.toNat else none

/-- degreeToCompass: None input returns None; otherwise index COMPASS_POINTS
at int((x + 11.25) / 22.5).  The outer Option is the possibility of an
IndexError (outer none); some none is the Python None result. -/
def degreeToCompass (x : Option ℚ) : Option (Option String) :=
  match x with
  | none => some none
  | some d => (pyGetItem COMPASS_POINTS (pyInt ((d + 11.25) / 22.5))).map some

/-- calc_trend, with the external collaborators made explicit as arguments:
now_val is now_vt.value, then_record is the result of
db_manager.getRecord(then_ts, grace) (a record is an association list whose
values may be database NULLs).  Unit conversion by the external weewx layer
is the identity here (packet and target units already agree), and it
preserves None, so the final subtraction raises a TypeError - modelled as
Except.error - when the stored historical value is NULL. -/
def calc_trend (obs_type : String) (now_val : Option ℚ)
    (then_record : Option (List (String × Option ℚ))) : Except Unit (Option ℚ) :=
  match now_val with
  | none => Except.ok none
  | some nowv =>
    match then_record with
    | none => Except.ok none
    | some rec0 =>
      match List.lookup obs_type rec0 with
      | none => Except.ok none
      | some thenOpt =>
        match thenOpt with
        | none => Except.error ()
        | some thenv => Except.ok (some (nowv - thenv))

/-- Python 2 round(, 1) applied through an integer: round half away from
zero. -/
def pyRound (q : ℚ) : ℤ := if 0 ≤ q then ⌊q + 1/2⌋ else -⌊-q + 1/2⌋

/-- round(x, 1) of Python 2: one decimal place, half away from zero. -/
def round1 (q : ℚ) : ℚ := (pyRound (q * 10) : ℚ) / 10

/-- A row produced by the windrose SQL query: either a null row or a pair of
the (already SQL-rounded) sector number and the speed sum, each possibly
NULL. -/
def WindroseRow : Type := Option (Option ℤ × Option ℚ)

/-- Python rose[i] += v on a list of rationals.  A negative index counts from
the end; an index that is still out of range raises IndexError, modelled as
none. -/
def pyAddAt (rose : List ℚ) (i : ℤ) (v : ℚ) : Option (List ℚ) :=
  let j : ℤ := if i < 0 then (rose.length : ℤ) + i else i
  if 0 ≤ j ∧ j < (rose.length : ℤ) then
    some (rose.set j.toNat (rose.getD j.toNat 0 + v))
  else none

/-- The body of the calc_windrose row loop: null rows are skipped; a row whose
sector equals points is folded into sector 0; every other row is added at its
own sector. -/
def roseStep (points : ℕ) (rose : List ℚ) (row : WindroseRow) : Option (List ℚ) :=
  match row with
  | none => some rose
  | some (none, _) => some rose
  | some (some _, none) => some rose
  | some (some i, some v) =>
    if i ≠ (points : ℤ) then pyAddAt rose i v else pyAddAt rose 0 v

/-- calc_windrose with the external archive query made explicit: the rows
argument stands for the generator db_manager.genSql(windrose_sql).  The
result list starts as points zeros, is accumulated row by row, and is finally
rounded to one decimal place. -/
def calc_windrose (points : ℕ) (rows : List WindroseRow) : Option (List ℚ) :=
  (rows.foldl (fun acc row => acc.bind fun rose => roseStep points rose row)
      (some (List.replicate points 0))).map (List.map round1)

/-- What matters about a queued loop packet for the run loop's failure
semantics: an identifier, whether processing raises before the inner
try..except of process_packet (while updating the packet cache or the
buffer), and whether the guarded generation phase raises. -/
structure LoopPayload where
  id : ℕ
  updateRaises : Bool
  generateRaises : Bool
deriving DecidableEq

/-- A package on the control queue of RealtimeGaugeDataThread.run: the None
shutdown sentinel, an archive record, an END_ARCHIVE_PERIOD event, a stats
package, or a loop packet. -/
inductive Package where
  | shutdown : Package
  | archivePkg : ℤ → Package
  | eventPkg : Package
  | statsPkg : Package
  | loopPkg : LoopPayload → Package
deriving DecidableEq

/-- RealtimeGaugeDataThread.process_packet: an exception in the cache update
or setLowsAndHighs escapes (Except.error); the generation phase is inside its
own try..except, so its exception is logged and swallowed.  The Bool result
records whether the file was generated. -/
def processPacket (p : LoopPayload) : Except Unit Bool :=
  if p.updateRaises then Except.error () else Except.ok (!p.generateRaises)

/-- The dispatch of RealtimeGaugeDataThread.run over the queued packages,
returning for each loop packet reached the pair (id, generated).  A None
package returns from the thread; an exception escaping process_packet is
caught by the handler at the loop-packet branch, logged as critical, and the
thread returns - nothing after it is processed. -/
def runLoop : List Package → List (ℕ × Bool)
  | [] => []
  | Package.shutdown :: _ => []
  | Package.archivePkg _ :: rest => runLoop rest
  | Package.eventPkg :: rest => runLoop rest
  | Package.statsPkg :: rest => runLoop rest
  | Package.loopPkg p :: rest =>
    match processPacket p with
    | Except.error _ => []
    | Except.ok g => (p.id, g) :: runLoop rest

/-- The backlog trim at the bottom of RealtimeGaugeDataThread.run:
while self.control_queue.qsize() > 5: self.control_queue.get().
Queue.get removes the oldest entry, the head of the list. -/
def trimQueue {α : Type} (q : List α) : List α :=
  if q.length ≤ 5 then q else trimQueue q.tail
termination_by q.length
decreasing_by
  simp only [List.length_tail]
  omega

/-- weeutil.weeutil.min_with_none of the external weeWX library (the
collaborator rtgd.py calls to merge lows): the minimum of the non-None
entries, None when all are None. -/
def min_with_none (xs : List (Option ℚ)) : Option ℚ :=
  xs.foldl (fun acc x =>
    match acc, x with
    | none, y => y
    | some a, none => some a
    | some a, some b => if b < a then some b else some a) none

/-- Python 2 max(a, b): starts from a and replaces it when b compares
strictly greater; None compares less than every number. -/
def pyMax2 (a b : Option ℚ) : Option ℚ := if py2GtOpt b a then b else a

/-- The tempTL computation of RealtimeGaugeDataThread.calculate:
tempTL = min_with_none([tempL_loop, day_min]); tempTL = tempTL if tempTL is
not None else temp.  Unit conversion (identical units) is the identity. -/
def tempTL_val (loopMin dayMin : Option ℚ) (temp : ℚ) : ℚ :=
  (min_with_none [loopMin, dayMin]).getD temp

/-- The TtempTL guard of RealtimeGaugeDataThread.calculate: true means the
surfaced time is day_stats['outTemp'].mintime, false means the loop buffer
timestamp.  The source compares the loop low against the already merged
minimum: TtempTL = day mintime if tempL_loop >= tempTL else buffer time. -/
def TtempTL_fromBaseline (loopMin dayMin : Option ℚ) (temp : ℚ) : Bool :=
  py2GeOpt loopMin (some (tempTL_val loopMin dayMin temp))

/-- The tempTH computation of RealtimeGaugeDataThread.calculate:
tempTH = max(tempH_loop, day_max); tempTH = tempTH if tempTH is not None else
temp. -/
def tempTH_val (loopMax dayMax : Option ℚ) (temp : ℚ) : ℚ :=
  (pyMax2 loopMax dayMax).getD temp

/-- The TtempTH guard of RealtimeGaugeDataThread.calculate: true means the
surfaced time is day_stats['outTemp'].maxtime.  The source compares the loop
high against the already merged maximum:
TtempTH = day maxtime if tempH_loop <= tempTH else buffer time. -/
def TtempTH_fromBaseline (loopMax dayMax : Option ℚ) (temp : ℚ) : Bool :=
  py2LeOpt loopMax (some (tempTH_val loopMax dayMax temp))

/-- math.radians. -/
noncomputable def radiansR (d : ℝ) : ℝ := d * Real.pi / 180

/-- math.degrees. -/
noncomputable def degreesR (r : ℝ) : ℝ := r * 180 / Real.pi

/-- math.atan2 on the reals, by quadrant over arctan. -/
noncomputable def atan2 (y x : ℝ) : ℝ :=
  if 0 < x then Real.arctan (y / x)
  else if x < 0 then
    (if 0 ≤ y then Real.arctan (y / x) + Real.pi else Real.arctan (y / x) - Real.pi)
  else
    (if 0 < y then Real.pi / 2 else if y < 0 then -(Real.pi / 2) else 0)

/-- The first stored component of a wind_dir_list entry:
windSpeed * math.cos(math.radians(90.0 - windDir)). -/
noncomputable def windX (s d : ℚ) : ℝ := (s : ℝ) * Real.cos (radiansR (90 - (d : ℝ)))

/-- The second stored component of a wind_dir_list entry:
windSpeed * math.sin(math.radians(90.0 - windDir)). -/
noncomputable def windY (s d : ℚ) : ℝ := (s : ℝ) * Real.sin (radiansR (90 - (d : ℝ)))

/-- sum(x for x, y, s, d, t in self.wind_dir_list). -/
noncomputable def xSum (l : List (ℚ × ℚ × ℤ)) : ℝ :=
  (l.map fun e => windX e.1 e.2.1).sum

/-- sum(y for x, y, s, d, t in self.wind_dir_list). -/
noncomputable def ySum (l : List (ℚ × ℚ × ℤ)) : ℝ :=
  (l.map fun e => windY e.1 e.2.1).sum

/-- RtgdBuffer.tenMinuteAverageWindDir:
avg = 90 - degrees(atan2(ySum, xSum)); avg if avg > 0 else avg + 360;
None when the list is empty. -/
noncomputable def tenMinuteAverageWindDir (l : List (ℚ × ℚ × ℤ)) : Option ℝ :=
  if 0 < l.length then
    some (if 0 < 90 - degreesR (atan2 (ySum l) (xSum l)) then
            90 - degreesR (atan2 (ySum l) (xSum l))
          else 90 - degreesR (atan2 (ySum l) (xSum l)) + 360)
  else none

/-! Helper lemmas about the buffer update. -/

lemma setLowsAndHighs_wind_list (b : RtgdBuffer) (p : LoopPacket) :
    (setLowsAndHighs b p).wind_list =
      (b.wind_list ++ [(pyWindSpeed p, p.dateTime)]).filter
        fun s => decide (p.dateTime - b.wind_period < s.2) := by
  simp only [setLowsAndHighs]
  rw [if_pos (by simp)]

lemma setLowsAndHighs_wind_dir_list (b : RtgdBuffer) (p : LoopPacket) :
    (setLowsAndHighs b p).wind_dir_list =
      (match p.windDir with
        | none => b.wind_dir_list
        | some d => b.wind_dir_list ++ [(pyWindSpeed p, d, p.dateTime)]).filter
        fun s => decide (p.dateTime - b.wind_period < s.2.2) := by
  simp only [setLowsAndHighs]
  cases hw : p.windDir with
  | none =>
    cases hl : b.wind_dir_list with
    | nil => simp
    | cons a l => rw [if_pos (by simp)]
  | some d => rw [if_pos (by simp)]

/-! Claim C1. -/

/-- Concrete buffer for claim C1: mid-period state with a nonzero rain sum. -/
def c1Buffer : RtgdBuffer :=
  { initBuffer with rainsum := 5, windsum := 3, windcount := 7 }

/-- Concrete loop packet for claim C1: dateTime only, every observation
absent, in particular rain is None and windSpeed is None. -/
def c1Packet : LoopPacket := { dateTime := 100 }

/-- C1: the claim states that a null-valued observation is a no-op on the
accumulator, leaving in particular the rain sum, the wind speed sum and the
wind sample count unchanged.  On the code, a packet whose rain is None
doubles the rain sum (rtgd.py line 2187 adds the current rainsum to itself)
and, windSpeed being absent, still increments the wind sample count; only the
wind speed sum is left unchanged. -/
theorem c1_null_observation_not_noop :
    (setLowsAndHighs c1Buffer c1Packet).rainsum = 10 ∧
    (setLowsAndHighs c1Buffer c1Packet).windcount = 8 ∧
    (setLowsAndHighs c1Buffer c1Packet).windsum = 3 := by
  refine ⟨?_, ?_, ?_⟩ <;>
    simp [c1Buffer, c1Packet, setLowsAndHighs, initBuffer, pyWindSpeed]
  norm_num

/-! Claim C5. -/

/-- Concrete buffer for claim C5: one retained wind sample at timestamp 0. -/
def c5Buffer : RtgdBuffer := { initBuffer with wind_list := [(5, 0)] }

/-- Concrete packet for claim C5: arrives at timestamp 600, exactly
wind_period after the retained sample. -/
def c5Packet : LoopPacket := { dateTime := 600, windSpeed := some 3 }

/-- C5 counterexample: the claim states that every entry with timestamp
greater than or equal to now - windowDuration is retained.  The entry at
timestamp 0 satisfies 0 >= 600 - 600, yet the add at time 600 evicts it: the
source keeps only entries with timestamp strictly greater than
now - wind_period. -/
theorem c5_counterexample_boundary_evicted :
    (setLowsAndHighs c5Buffer c5Packet).wind_list = [(3, 600)] ∧
    ((0 : ℤ) ≥ 600 - 600) ∧
    ((5 : ℚ), (0 : ℤ)) ∉ (setLowsAndHighs c5Buffer c5Packet).wind_list := by
  decide

/-- C5 (amended): after the add at time now, exactly the entries with
timestamp less than or equal to now - wind_period (600 s by default) are
evicted from both wind lists: an entry survives if and only if it was already
present or is the fresh sample, and its timestamp is strictly greater than
now - wind_period. -/
theorem c5_eviction_amended :
    ∀ (b : RtgdBuffer) (p : LoopPacket) (e : ℚ × ℤ),
      (e ∈ (setLowsAndHighs b p).wind_list ↔
        (e ∈ b.wind_list ∨ e = (pyWindSpeed p, p.dateTime)) ∧
          p.dateTime - b.wind_period < e.2) ∧
      (∀ f : ℚ × ℚ × ℤ,
        f ∈ (setLowsAndHighs b p).wind_dir_list ↔
          (f ∈ b.wind_dir_list ∨
            ∃ d, p.windDir = some d ∧ f = (pyWindSpeed p, d, p.dateTime)) ∧
            p.dateTime - b.wind_period < f.2.2) := by
  intro b p e
  constructor
  · rw [setLowsAndHighs_wind_list]
    simp only [List.mem_filter, List.mem_append, List.mem_singleton,
      decide_eq_true_eq]
  · intro f
    rw [setLowsAndHighs_wind_dir_list]
    cases hw : p.windDir with
    | none =>
      simp only [List.mem_filter, hw, decide_eq_true_eq, Option.some.injEq,
        false_and, exists_false, or_false, reduceCtorEq, exists_and_left]
    | some d =>
      simp only [List.mem_filter, List.mem_append, List.mem_singleton, hw,
        decide_eq_true_eq, Option.some.injEq]
      constructor
      · rintro ⟨h1 | h1, h2⟩
        · exact ⟨Or.inl h1, h2⟩
        · exact ⟨Or.inr ⟨d, rfl, h1⟩, h2⟩
      · rintro ⟨h1 | ⟨d2, hd2, h1⟩, h2⟩
        · exact ⟨Or.inl h1, h2⟩
        · cases hd2
          exact ⟨Or.inr h1, h2⟩

/-! Claim C2. -/

/-- Concrete queue for claim C2: the first loop packet raises while the cache
and buffer are being updated; a second, well-behaved loop packet is already
queued behind it. -/
def c2Queue : List Package :=
  [Package.loopPkg { id := 1, updateRaises := true, generateRaises := false },
   Package.loopPkg { id := 2, updateRaises := false, generateRaises := false }]

/-- C2 counterexample: the claim states that an exception raised while a loop
sample is processed is logged, the sample skipped, and the loop continues
with the queued events.  On the code, the exception of sample 1 (raised in
the cache/buffer update, outside the inner try of process_packet) reaches the
handler at rtgd.py lines 1155-1164, which logs it and returns from run: the
thread stops and the queued sample 2 is never processed. -/
theorem c2_counterexample_thread_stops :
    runLoop c2Queue = [] ∧ ((2 : ℕ), true) ∉ runLoop c2Queue := by
  decide

/-- C2 (amended): an exception raised in the guarded generation phase of
process_packet is caught and logged, that sample alone is skipped and the
loop continues with the rest of the queue; an exception raised while the
packet cache or the buffer is updated escapes process_packet, and the run
loop logs it and exits the thread, abandoning every queued event. -/
theorem c2_exception_semantics_amended :
    ∀ (p : LoopPayload) (rest : List Package),
      (p.updateRaises = false →
        runLoop (Package.loopPkg p :: rest) =
          (p.id, !p.generateRaises) :: runLoop rest) ∧
      (p.updateRaises = true → runLoop (Package.loopPkg p :: rest) = []) := by
  intro p rest
  constructor <;> intro h <;> simp [runLoop, processPacket, h]

/-- Witness for the amended C2 theorem at a concrete queue: a sample whose
generation phase raises is skipped (generated = false) and the loop goes on
to drain the rest of the queue. -/
theorem c2_exception_semantics_amended_witness :
    runLoop
      (Package.loopPkg { id := 3, updateRaises := false, generateRaises := true }
        :: [Package.eventPkg]) = [(3, false)] := by
  have h :=
    (c2_exception_semantics_amended
      { id := 3, updateRaises := false, generateRaises := true }
      [Package.eventPkg]).1 rfl
  simpa [runLoop] using h

/-! Claim C9. -/

/-- What one pass of the inner run-loop body can end in: thread exit (the
None sentinel, or a fatal exception from a loop packet), a handled package
(carrying the processed (id, generated) pair for a loop packet), or a
Queue.Empty timeout of the one-second control-queue read. -/
inductive IterOutcome where
  | exit : IterOutcome
  | handled : Option (ℕ × Bool) → IterOutcome
  | timedOut : IterOutcome
deriving DecidableEq

/-- One pass of the inner while loop of RealtimeGaugeDataThread.run over the
control queue, paired with the queue contents the next pass sees.  Every
branch that dequeued a package ends in continue (rtgd.py:1127, 1133, 1142,
1154) or returns, jumping back to the top of the inner loop, so the trim at
lines 1165-1168 is reached only on the Queue.Empty path of the blocking
one-second read - in this single-producer-free model, only when the queue is
empty. -/
def runIteration (q : List Package) : IterOutcome × List Package :=
  match q with
  | [] => (IterOutcome.timedOut, trimQueue [])
  | Package.shutdown :: rest => (IterOutcome.exit, rest)
  | Package.archivePkg _ :: rest => (IterOutcome.handled none, rest)
  | Package.eventPkg :: rest => (IterOutcome.handled none, rest)
  | Package.statsPkg :: rest => (IterOutcome.handled none, rest)
  | Package.loopPkg p :: rest =>
    match processPacket p with
    | Except.error _ => (IterOutcome.exit, rest)
    | Except.ok g => (IterOutcome.handled (some (p.id, g)), rest)

/-- A backlog of seven loop packets, two above the bound of 5. -/
def c9Queue : List Package :=
  [Package.loopPkg { id := 1, updateRaises := false, generateRaises := false },
   Package.loopPkg { id := 2, updateRaises := false, generateRaises := false },
   Package.loopPkg { id := 3, updateRaises := false, generateRaises := false },
   Package.loopPkg { id := 4, updateRaises := false, generateRaises := false },
   Package.loopPkg { id := 5, updateRaises := false, generateRaises := false },
   Package.loopPkg { id := 6, updateRaises := false, generateRaises := false },
   Package.loopPkg { id := 7, updateRaises := false, generateRaises := false }]

/-- C9 counterexample: the claim states that after each iteration a queue
depth above 5 is drained down to 5, keeping only the most recent entries.
On a backlog of 7 loop packets, the iteration that handles the first packet
ends in continue and leaves the 6 remaining entries untrimmed (depth 6 > 5),
and the loop goes on to process all seven packets in arrival order, oldest
first - not only the most recent 5. -/
theorem c9_counterexample_trim_skipped :
    (runIteration c9Queue).2.length = 6 ∧
    5 < (runIteration c9Queue).2.length ∧
    runLoop c9Queue =
      [(1, true), (2, true), (3, true), (4, true), (5, true), (6, true),
        (7, true)] := by
  decide

lemma trimQueue_eq_drop_aux {α : Type} :
    ∀ (n : ℕ) (q : List α), q.length ≤ n →
      trimQueue q = q.drop (q.length - 5) := by
  intro n
  induction n with
  | zero =>
    intro q h
    have hq : q = [] := List.length_eq_zero.mp (Nat.le_zero.mp h)
    subst hq
    rw [trimQueue]
    simp
  | succ n ih =>
    intro q h
    rw [trimQueue]
    by_cases h5 : q.length ≤ 5
    · rw [if_pos h5]
      have h0 : q.length - 5 = 0 := by omega
      rw [h0, List.drop_zero]
    · rw [if_neg h5]
      rcases q with _ | ⟨a, q⟩
      · simp at h5
      · have ht : q.length ≤ n := by
          simp only [List.length_cons] at h
          omega
        have h6 : 5 ≤ q.length := by
          simp only [List.length_cons] at h5
          omega
        rw [List.tail_cons, ih q ht, List.length_cons]
        have h1 : q.length + 1 - 5 = (q.length - 5) + 1 := by omega
        rw [h1, List.drop_succ_cons]

/-- C9 (amended): the drain at rtgd.py:1165-1168 is reached only after an
iteration in which the one-second control-queue read timed out; every
iteration that dequeued a package ends in continue and leaves the remaining
queue untrimmed, so under sustained backlog the drain never runs and every
queued loop packet is processed in arrival order, oldest first - not only
the most recent 5.  When the drain does run, it pops the oldest entries
until at most 5 remain, keeping exactly the most recent ones: the suffix of
the queue of length min(length, 5). -/
theorem c9_backpressure_amended :
    (∀ q : List Package, q ≠ [] → (runIteration q).2 = q.tail) ∧
    runIteration ([] : List Package) = (IterOutcome.timedOut, trimQueue []) ∧
    (∀ ps : List LoopPayload, (∀ p ∈ ps, p.updateRaises = false) →
      runLoop (ps.map Package.loopPkg) =
        ps.map fun p => (p.id, !p.generateRaises)) ∧
    (∀ q : List Package,
      trimQueue q = q.drop (q.length - 5) ∧
      (trimQueue q).length = min q.length 5 ∧
      List.IsSuffix (trimQueue q) q) := by
  refine ⟨?_, rfl, ?_, ?_⟩
  · intro q hq
    match q with
    | [] => exact absurd rfl hq
    | Package.shutdown :: rest => rfl
    | Package.archivePkg _ :: rest => rfl
    | Package.eventPkg :: rest => rfl
    | Package.statsPkg :: rest => rfl
    | Package.loopPkg p :: rest =>
      simp only [runIteration]
      cases hpp : processPacket p <;> simp
  · intro ps
    induction ps with
    | nil =>
      intro _
      rfl
    | cons p rest ih =>
      intro h
      have hp : p.updateRaises = false := h p (List.mem_cons_self _ _)
      simp only [List.map_cons, runLoop, processPacket, hp, Bool.false_eq_true,
        if_false]
      rw [ih fun x hx => h x (List.mem_cons_of_mem _ hx)]
  · intro q
    have h := trimQueue_eq_drop_aux q.length q le_rfl
    refine ⟨h, ?_, ?_⟩
    · rw [h, List.length_drop]
      omega
    · rw [h]
      exact List.drop_suffix _ _

/-- Witness for the amended C9 theorem at a concrete two-packet backlog:
both packets are processed in order, the second marked skipped because its
generation phase raised. -/
theorem c9_backpressure_amended_witness :
    runLoop
      ([{ id := 1, updateRaises := false, generateRaises := false },
        { id := 2, updateRaises := false, generateRaises := true }].map
        Package.loopPkg) = [(1, true), (2, false)] := by
  have h := c9_backpressure_amended.2.2.1
    [{ id := 1, updateRaises := false, generateRaises := false },
     { id := 2, updateRaises := false, generateRaises := true }]
    (by simp)
  simpa using h

/-! Claim C4. -/

/-- C4: get_packet fills every field through get_value, and get_value returns
None for an observation that was never cached or whose last update is at
timestamp ts - max_age - 1 or older, returns the cached value for one last
updated at exactly ts - max_age, and is total - a missing or stale field
yields none, never an error. -/
theorem c4_cache_expiry :
    ∀ (c : CachedPacket) (obs : String) (ts max_age : ℤ),
      (cacheLookup c.cache obs = none → get_value c obs ts max_age = none) ∧
      (∀ e : CacheEntry, cacheLookup c.cache obs = some e →
        e.ts ≤ ts - max_age - 1 → get_value c obs ts max_age = none) ∧
      (∀ e : CacheEntry, cacheLookup c.cache obs = some e →
        e.ts = ts - max_age → get_value c obs ts max_age = e.value) ∧
      (∀ ov : Option ℚ, (obs, ov) ∈ (get_packet c ts max_age).fields →
        ov = get_value c obs ts max_age) ∧
      (get_packet c ts max_age).dateTime = ts := by
  intro c obs ts max_age
  refine ⟨?_, ?_, ?_, ?_, rfl⟩
  · intro h
    simp [get_value, h]
  · intro e he hts
    simp only [get_value, he]
    rw [if_neg (by omega)]
  · intro e he hts
    simp only [get_value, he]
    rw [if_pos (by omega)]
  · intro ov h
    unfold get_packet at h
    simp only [List.mem_map] at h
    obtain ⟨kv, _, hkv⟩ := h
    obtain ⟨h1, h2⟩ := Prod.mk.injEq .. ▸ hkv
    rw [← h2, h1]

/-- Concrete cache for the C4 witness: outTemp last seen at 400, rain at 399,
UV never seen. -/
def c4Cache : CachedPacket :=
  { cache := [("outTemp", { value := some 21, ts := 400 }),
              ("rain", { value := some 2, ts := 399 })],
    unit_system := some 1 }

/-- Witness for C4 at ts = 1000, max_age = 600: the entry at exactly
ts - max_age = 400 is returned, the one at 399 = ts - max_age - 1 is None,
and the never-seen observation is None. -/
theorem c4_cache_expiry_witness :
    get_value c4Cache "outTemp" 1000 600 = some 21 ∧
    get_value c4Cache "rain" 1000 600 = none ∧
    get_value c4Cache "UV" 1000 600 = none := by
  refine ⟨?_, ?_, ?_⟩
  · have h := (c4_cache_expiry c4Cache "outTemp" 1000 600).2.2.1
      { value := some 21, ts := 400 } (by decide) (by decide)
    simpa using h
  · exact (c4_cache_expiry c4Cache "rain" 1000 600).2.1
      { value := some 2, ts := 399 } (by decide) (by decide)
  · exact (c4_cache_expiry c4Cache "UV" 1000 600).1 (by decide)

/-! Claim C10. -/

/-- C10: degreeToCompass is total on bearings in [0, 360]: the computed index
int((x + 11.25) / 22.5) lies in [0, 16], the table has 17 entries, the lookup
therefore never raises, 360 maps to the duplicated final "N", and a None
input returns None. -/
theorem c10_degreeToCompass_total :
    ∀ x : ℚ, 0 ≤ x → x ≤ 360 →
      (0 ≤ pyInt ((x + 11.25) / 22.5) ∧ pyInt ((x + 11.25) / 22.5) ≤ 16) ∧
      COMPASS_POINTS.length = 17 ∧
      (∃ s : String, degreeToCompass (some x) = some (some s)) ∧
      degreeToCompass none = some none ∧
      degreeToCompass (some 360) = some (some "N") := by
  intro x h0 h360
  have hq0 : (0 : ℚ) ≤ (x + 11.25) / 22.5 := by positivity
  have hqlt : (x + 11.25) / 22.5 < 17 := by
    rw [div_lt_iff₀ (by norm_num : (0 : ℚ) < 22.5)]
    linarith
  have hint : pyInt ((x + 11.25) / 22.5) = ⌊(x + 11.25) / 22.5⌋ := by
    unfold pyInt
    rw [if_pos hq0]
  have hfl0 : 0 ≤ ⌊(x + 11.25) / 22.5⌋ := Int.floor_nonneg.mpr hq0
  have hfl16 : ⌊(x + 11.25) / 22.5⌋ ≤ 16 := by
    have h17 : ⌊(x + 11.25) / 22.5⌋ < 17 := by
      rw [Int.floor_lt]
      exact_mod_cast hqlt
    omega
  have hlen : COMPASS_POINTS.length = 17 := by decide
  have hi0 : 0 ≤ pyInt ((x + 11.25) / 22.5) := by rw [hint]; exact hfl0
  have hi16 : pyInt ((x + 11.25) / 22.5) ≤ 16 := by rw [hint]; exact hfl16
  have hnat : (pyInt ((x + 11.25) / 22.5)).toNat < COMPASS_POINTS.length := by
    rw [hlen]
    omega
  have h360N : degreeToCompass (some 360) = some (some "N") := by
    have hval : pyInt (((360 : ℚ) + 11.25) / 22.5) = 16 := by
      have hdiv : ((360 : ℚ) + 11.25) / 22.5 = 33 / 2 := by norm_num
      unfold pyInt
      rw [if_pos (by norm_num), hdiv]
      rw [Int.floor_eq_iff]
      norm_num
    simp only [degreeToCompass, hval]
    decide
  refine ⟨⟨hi0, hi16⟩, hlen, ?_, rfl, h360N⟩
  have hstep : degreeToCompass (some x) =
      (COMPASS_POINTS.get? (pyInt ((x + 11.25) / 22.5)).toNat).map some := by
    simp only [degreeToCompass, pyGetItem]
    rw [if_neg (by omega : ¬ pyInt ((x + 11.25) / 22.5) < 0)]
    rw [if_pos ⟨hi0, by rw [hlen]; push_cast; omega⟩]
  refine ⟨COMPASS_POINTS.get ⟨(pyInt ((x + 11.25) / 22.5)).toNat, hnat⟩, ?_⟩
  rw [hstep, List.get?_eq_get hnat]
  rfl

/-- Witness for C10 at the boundary bearing 360. -/
theorem c10_degreeToCompass_total_witness :
    degreeToCompass (some 360) = some (some "N") :=
  (c10_degreeToCompass_total 360 (by norm_num) (by norm_num)).2.2.2.2

/-! Claim C8. -/

/-- Concrete historical record for claim C8: the requested observation is
present but holds a database NULL. -/
def c8Record : List (String × Option ℚ) := [("outTemp", none)]

/-- C8 counterexample: the claim states calc_trend returns null exactly when
the current value is null, no record is found, or the record lacks the
observation - and otherwise returns the difference.  A record that contains
the observation with a NULL value is none of the three null cases, yet the
code does not return a difference either: the subtraction now - None raises
a TypeError. -/
theorem c8_counterexample_null_value_raises :
    calc_trend "outTemp" (some 20) (some c8Record) = Except.error () := by
  simp [calc_trend, c8Record, List.lookup]

/-- C8 (amended): calc_trend returns null exactly when the current value is
null, no record is found within the grace tolerance, or the found record
lacks the observation; when the record holds a non-null value it returns
currentValue - historicalValue; when the record holds the observation with a
null value the subtraction raises a TypeError (caught further up by the
process_packet generation guard). -/
theorem c8_trend_amended :
    ∀ (obs : String) (nowv : ℚ) (rec0 : List (String × Option ℚ))
      (record : Option (List (String × Option ℚ))),
      calc_trend obs none record = Except.ok none ∧
      calc_trend obs (some nowv) none = Except.ok none ∧
      (List.lookup obs rec0 = none →
        calc_trend obs (some nowv) (some rec0) = Except.ok none) ∧
      (∀ tv : ℚ, List.lookup obs rec0 = some (some tv) →
        calc_trend obs (some nowv) (some rec0) = Except.ok (some (nowv - tv))) ∧
      (List.lookup obs rec0 = some none →
        calc_trend obs (some nowv) (some rec0) = Except.error ()) := by
  intro obs nowv rec0 record
  refine ⟨rfl, rfl, ?_, ?_, ?_⟩
  · intro h
    simp [calc_trend, h]
  · intro tv h
    simp [calc_trend, h]
  · intro h
    simp [calc_trend, h]

/-- Witness for the amended C8 theorem: the specification example current =
20.0, historical = 18.5 gives delta 1.5, and a record lacking the observation
gives null. -/
theorem c8_trend_amended_witness :
    calc_trend "outTemp" (some 20) (some [("outTemp", some (37 / 2))]) =
      Except.ok (some (3 / 2)) ∧
    calc_trend "outTemp" (some 20) (some [("barometer", some 1)]) =
      Except.ok none := by
  constructor
  · have h := (c8_trend_amended "outTemp" 20 [("outTemp", some (37 / 2))]
      none).2.2.2.1 (37 / 2) (by simp [List.lookup])
    rw [h]
    norm_num
  · exact (c8_trend_amended "outTemp" 20 [("barometer", some 1)]
      none).2.2.1 (by simp [List.lookup])

/-! Claim C7. -/

/-- C7: the claim states that when the in-period buffer is merged with the
day baseline, the merged low/high is the extremum across both (which the
code does satisfy: the value conjuncts), but that the surfaced
time-of-occurrence belongs to the more extreme value, ties preferring the
baseline.  On the code the guard compares the loop value against the already
merged extremum, a comparison that always holds, so the baseline timestamp
is surfaced even when the loop buffer holds the more extreme value: with day
min 10 and loop low 5 the merged low is 5 yet the surfaced time is the
baseline's mintime. -/
theorem c7_merge_surfaces_baseline_time :
    tempTL_val (some 5) (some 10) 21 = 5 ∧
    TtempTL_fromBaseline (some 5) (some 10) 21 = true ∧
    (∀ l d t : ℚ, tempTL_val (some l) (some d) t = min l d) ∧
    (∀ l d t : ℚ, tempTH_val (some l) (some d) t = max l d) ∧
    (∀ l d t : ℚ, TtempTL_fromBaseline (some l) (some d) t = true) ∧
    (∀ l d t : ℚ, TtempTH_fromBaseline (some l) (some d) t = true) := by
  have hmin : ∀ l d t : ℚ, tempTL_val (some l) (some d) t = min l d := by
    intro l d t
    simp only [tempTL_val, min_with_none, List.foldl]
    rcases lt_or_ge d l with h | h
    · rw [if_pos h, Option.getD_some]
      exact (min_eq_right h.le).symm
    · rw [if_neg (not_lt.mpr h), Option.getD_some]
      exact (min_eq_left h).symm
  have hmax : ∀ l d t : ℚ, tempTH_val (some l) (some d) t = max l d := by
    intro l d t
    simp only [tempTH_val, pyMax2, py2GtOpt, py2LtOpt]
    rcases lt_or_ge l d with h | h
    · rw [if_pos (by simpa using h), Option.getD_some]
      exact (max_eq_right h.le).symm
    · rw [if_neg (by simpa using not_lt.mpr h), Option.getD_some]
      exact (max_eq_left h).symm
  refine ⟨?_, ?_, hmin, hmax, ?_, ?_⟩
  · rw [hmin]
    norm_num
  · simp only [TtempTL_fromBaseline, py2GeOpt, py2LtOpt, hmin]
    norm_num
  · intro l d t
    simp only [TtempTL_fromBaseline, py2GeOpt, py2LtOpt, hmin]
    simp [min_le_left]
  · intro l d t
    simp only [TtempTH_fromBaseline, py2LeOpt, py2GtOpt, py2LtOpt, hmax]
    simp [le_max_left]

/-! Claim C6. -/

lemma pyAddAt_some (rose : List ℚ) (i : ℤ) (v : ℚ) (h0 : 0 ≤ i)
    (hlt : i < (rose.length : ℤ)) :
    ∃ r, pyAddAt rose i v = some r ∧ r.length = rose.length := by
  simp only [pyAddAt]
  rw [if_neg (not_lt.mpr h0), if_pos ⟨h0, hlt⟩]
  exact ⟨_, rfl, by simp⟩

lemma windroseFoldl_some (points : ℕ) (hp : 0 < points) :
    ∀ (rows : List WindroseRow) (rose : List ℚ), rose.length = points →
      (∀ i v, some (some i, some v) ∈ rows → 0 ≤ i ∧ i ≤ (points : ℤ)) →
      ∃ r, rows.foldl (fun acc row => acc.bind fun rs => roseStep points rs row)
          (some rose) = some r ∧ r.length = points := by
  intro rows
  induction rows with
  | nil =>
    intro rose hlen _
    exact ⟨rose, rfl, hlen⟩
  | cons row rest ih =>
    intro rose hlen hok
    have hstep : ∃ r1, roseStep points rose row = some r1 ∧ r1.length = points := by
      match row with
      | none => exact ⟨rose, rfl, hlen⟩
      | some (none, s) => exact ⟨rose, rfl, hlen⟩
      | some (some i, none) => exact ⟨rose, rfl, hlen⟩
      | some (some i, some v) =>
        have hb := hok i v (by simp)
        by_cases hip : i = (points : ℤ)
        · simp only [roseStep]
          rw [if_neg (by simp [hip])]
          obtain ⟨r1, h1, h2⟩ :=
            pyAddAt_some rose 0 v le_rfl (by rw [hlen]; exact_mod_cast hp)
          exact ⟨r1, h1, by rw [h2, hlen]⟩
        · simp only [roseStep]
          rw [if_pos hip]
          have hilt : i < (points : ℤ) := lt_of_le_of_ne hb.2 hip
          obtain ⟨r1, h1, h2⟩ :=
            pyAddAt_some rose i v hb.1 (by rw [hlen]; exact hilt)
          exact ⟨r1, h1, by rw [h2, hlen]⟩
    obtain ⟨r1, h1, h1len⟩ := hstep
    obtain ⟨r, hr, hrlen⟩ :=
      ih r1 h1len (fun i v hm => hok i v (List.mem_cons_of_mem _ hm))
    refine ⟨r, ?_, hrlen⟩
    simpa [List.foldl, h1] using hr

/-- C6: calc_windrose returns a points-length histogram; a result row whose
sector index equals points is folded into sector 0 exactly as a sector-0 row
would be; rows that are null or contain a null component are skipped; every
output value is a whole number of tenths (one decimal place); and the
concrete case points = 4 with the single row (sector 4, speedSum 12.3) gives
sector 0 = 12.3 and all other sectors 0.0. -/
theorem c6_windrose_bucketing :
    (∀ (points : ℕ) (rows : List WindroseRow), 0 < points →
      (∀ i v, some (some i, some v) ∈ rows → 0 ≤ i ∧ i ≤ (points : ℤ)) →
      ∃ r, calc_windrose points rows = some r ∧ r.length = points) ∧
    (∀ (points : ℕ) (rows : List WindroseRow) (s : Option ℚ) (d : Option ℤ),
      calc_windrose points (some (none, s) :: rows) = calc_windrose points rows ∧
      calc_windrose points (some (d, none) :: rows) = calc_windrose points rows ∧
      calc_windrose points (none :: rows) = calc_windrose points rows) ∧
    (∀ (points : ℕ) (rows : List WindroseRow) (v : ℚ), 0 < points →
      calc_windrose points (some (some (points : ℤ), some v) :: rows) =
        calc_windrose points (some (some 0, some v) :: rows)) ∧
    (∀ (points : ℕ) (rows : List WindroseRow) (r : List ℚ),
      calc_windrose points rows = some r → ∀ x ∈ r, ∃ k : ℤ, x = (k : ℚ) / 10) ∧
    calc_windrose 4 [some (some 4, some (123 / 10))] =
      some [123 / 10, 0, 0, 0] := by
  refine ⟨?_, ?_, ?_, ?_, ?_⟩
  · intro points rows hp hok
    obtain ⟨r, hr, hrlen⟩ :=
      windroseFoldl_some points hp rows (List.replicate points 0)
        (List.length_replicate _ _) hok
    exact ⟨r.map round1, by simp [calc_windrose, hr], by simp [hrlen]⟩
  · intro points rows s d
    refine ⟨?_, ?_, ?_⟩
    · simp [calc_windrose, roseStep, List.foldl]
    · rcases d with _ | i <;> simp [calc_windrose, roseStep, List.foldl]
    · simp [calc_windrose, roseStep, List.foldl]
  · intro points rows v hp
    have hstep : roseStep points (List.replicate points 0)
        (some (some (points : ℤ), some v)) =
        roseStep points (List.replicate points 0) (some (some 0, some v)) := by
      simp only [roseStep]
      rw [if_neg (by simp), if_pos (by omega)]
    simp only [calc_windrose, List.foldl, Option.bind]
    rw [hstep]
  · intro points rows r h x hx
    unfold calc_windrose at h
    obtain ⟨raw, _, hmap⟩ := Option.map_eq_some'.mp h
    subst hmap
    obtain ⟨y, _, rfl⟩ := List.mem_map.mp hx
    exact ⟨pyRound (y * 10), rfl⟩
  · have h1 : roseStep 4 [0, 0, 0, 0] (some (some 4, some (123 / 10))) =
        some [123 / 10, 0, 0, 0] := by
      simp only [roseStep]
      rw [if_neg (by norm_num)]
      simp only [pyAddAt]
      norm_num
    have hround : round1 (123 / 10) = 123 / 10 ∧ round1 0 = 0 := by
      constructor
      · unfold round1 pyRound
        rw [if_pos (by norm_num)]
        have : (123 : ℚ) / 10 * 10 + 1 / 2 = 247 / 2 := by norm_num
        rw [this]
        have h247 : ⌊(247 : ℚ) / 2⌋ = 123 := by
          rw [Int.floor_eq_iff]
          norm_num
        rw [h247]
        norm_num
      · unfold round1 pyRound
        rw [if_pos (by norm_num)]
        have : (0 : ℚ) * 10 + 1 / 2 = 1 / 2 := by norm_num
        rw [this]
        have hhalf : ⌊(1 : ℚ) / 2⌋ = 0 := by
          rw [Int.floor_eq_iff]
          norm_num
        rw [hhalf]
        norm_num
    show (List.foldl _ (some (List.replicate 4 0)) _).map (List.map round1) = _
    have hrep : (List.replicate 4 (0 : ℚ)) = [0, 0, 0, 0] := by rfl
    rw [List.foldl, hrep]
    simp only [Option.bind, h1, List.foldl, Option.map]
    rw [List.map]
    simp [hround.1, hround.2]

/-- Witness for C6 at the concrete inputs of the specification example:
points = 4 and the single wraparound row, discharging the positivity and
sector-range hypotheses. -/
theorem c6_windrose_bucketing_witness :
    ∃ r, calc_windrose 4 [some (some 4, some (123 / 10))] = some r ∧
      r.length = 4 := by
  refine c6_windrose_bucketing.1 4 [some (some 4, some (123 / 10))]
    (by norm_num) ?_
  intro i v hm
  simp only [List.mem_singleton, Option.some.injEq, Prod.mk.injEq] at hm
  obtain ⟨h1, _⟩ := hm
  obtain ⟨hi, _⟩ := Option.some.injEq .. ▸ h1
  constructor <;> omega

/-! Claim C3. -/

/-- First specification sample: speed 10, bearing 0 (north) at time 0. -/
def pktN : LoopPacket := { dateTime := 0, windSpeed := some 10, windDir := some 0 }

/-- Second specification sample: speed 10, bearing 90 (east) at time 1. -/
def pktE : LoopPacket := { dateTime := 1, windSpeed := some 10, windDir := some 90 }

/-- Third specification sample: speed 10, bearing 180 (south) at time 2. -/
def pktS : LoopPacket := { dateTime := 2, windSpeed := some 10, windDir := some 180 }

/-- Buffer after feeding the single north sample. -/
def bufNorth : RtgdBuffer := setLowsAndHighs initBuffer pktN

/-- Buffer after feeding the three specification samples in order. -/
def bufThree : RtgdBuffer :=
  setLowsAndHighs (setLowsAndHighs bufNorth pktE) pktS

lemma bufNorth_wdl : bufNorth.wind_dir_list = [(10, 0, 0)] := by decide

lemma bufThree_wdl :
    bufThree.wind_dir_list = [(10, 0, 0), (10, 90, 1), (10, 180, 2)] := by
  decide

lemma xSum_three :
    xSum [(10, 0, 0), (10, 90, 1), (10, 180, 2)] = 10 := by
  simp only [xSum, List.map_cons, List.map_nil, List.sum_cons, List.sum_nil,
    windX, radiansR]
  push_cast
  rw [show ((90 : ℝ) - 0) * Real.pi / 180 = Real.pi / 2 by ring,
    show ((90 : ℝ) - 90) * Real.pi / 180 = 0 by ring,
    show ((90 : ℝ) - 180) * Real.pi / 180 = -(Real.pi / 2) by ring,
    Real.cos_pi_div_two, Real.cos_zero, Real.cos_neg, Real.cos_pi_div_two]
  norm_num

lemma ySum_three :
    ySum [(10, 0, 0), (10, 90, 1), (10, 180, 2)] = 0 := by
  simp only [ySum, List.map_cons, List.map_nil, List.sum_cons, List.sum_nil,
    windY, radiansR]
  push_cast
  rw [show ((90 : ℝ) - 0) * Real.pi / 180 = Real.pi / 2 by ring,
    show ((90 : ℝ) - 90) * Real.pi / 180 = 0 by ring,
    show ((90 : ℝ) - 180) * Real.pi / 180 = -(Real.pi / 2) by ring,
    Real.sin_pi_div_two, Real.sin_zero, Real.sin_neg, Real.sin_pi_div_two]
  norm_num

lemma xSum_north : xSum [(10, 0, 0)] = 0 := by
  simp only [xSum, List.map_cons, List.map_nil, List.sum_cons, List.sum_nil,
    windX, radiansR]
  push_cast
  rw [show ((90 : ℝ) - 0) * Real.pi / 180 = Real.pi / 2 by ring,
    Real.cos_pi_div_two]
  norm_num

lemma ySum_north : ySum [(10, 0, 0)] = 10 := by
  simp only [ySum, List.map_cons, List.map_nil, List.sum_cons, List.sum_nil,
    windY, radiansR]
  push_cast
  rw [show ((90 : ℝ) - 0) * Real.pi / 180 = Real.pi / 2 by ring,
    Real.sin_pi_div_two]
  norm_num

lemma atan2_zero_ten : atan2 0 10 = 0 := by
  unfold atan2
  rw [if_pos (by norm_num : (0 : ℝ) < 10)]
  norm_num [Real.arctan_zero]

lemma atan2_ten_zero : atan2 10 0 = Real.pi / 2 := by
  unfold atan2
  rw [if_neg (by norm_num), if_neg (by norm_num), if_pos (by norm_num : (0 : ℝ) < 10)]

lemma degreesR_zero : degreesR 0 = 0 := by
  unfold degreesR
  ring

lemma degreesR_pi_div_two : degreesR (Real.pi / 2) = 90 := by
  unfold degreesR
  field_simp
  ring

lemma avgdir_three :
    tenMinuteAverageWindDir [(10, 0, 0), (10, 90, 1), (10, 180, 2)] = some 90 := by
  unfold tenMinuteAverageWindDir
  rw [if_pos (by simp), xSum_three, ySum_three, atan2_zero_ten, degreesR_zero]
  norm_num

lemma avgdir_north : tenMinuteAverageWindDir [(10, 0, 0)] = some 360 := by
  unfold tenMinuteAverageWindDir
  rw [if_pos (by simp), xSum_north, ySum_north, atan2_ten_zero,
    degreesR_pi_div_two]
  norm_num

lemma atan2_bounds (y x : ℝ) : -Real.pi < atan2 y x ∧ atan2 y x ≤ Real.pi := by
  have hpi := Real.pi_pos
  have hlt := Real.arctan_lt_pi_div_two (y / x)
  have hgt := Real.neg_pi_div_two_lt_arctan (y / x)
  unfold atan2
  split_ifs with h1 h2 h3 h4 h5
  · constructor <;> linarith
  · have hyx : y / x ≤ 0 := div_nonpos_of_nonneg_of_nonpos h3 h2.le
    have harct : Real.arctan (y / x) ≤ 0 := by
      have hm := Real.arctan_strictMono.monotone hyx
      rwa [Real.arctan_zero] at hm
    constructor <;> linarith
  · have hy : y < 0 := lt_of_not_ge h3
    have hyx : 0 < y / x := div_pos_of_neg_of_neg hy h2
    have harct : 0 < Real.arctan (y / x) := by
      have hm := Real.arctan_strictMono hyx
      rwa [Real.arctan_zero] at hm
    constructor <;> linarith
  · constructor <;> linarith
  · constructor <;> linarith
  · constructor <;> linarith

lemma degreesR_le_180 {a : ℝ} (h : a ≤ Real.pi) : degreesR a ≤ 180 := by
  unfold degreesR
  rw [div_le_iff₀ Real.pi_pos]
  nlinarith [Real.pi_pos]

lemma neg_180_lt_degreesR {a : ℝ} (h : -Real.pi < a) : -180 < degreesR a := by
  unfold degreesR
  rw [lt_div_iff₀ Real.pi_pos]
  nlinarith [Real.pi_pos]

lemma avgdir_range (l : List (ℚ × ℚ × ℤ)) (h : 0 < l.length) :
    ∃ d : ℝ, tenMinuteAverageWindDir l = some d ∧ 0 < d ∧ d ≤ 360 := by
  unfold tenMinuteAverageWindDir
  rw [if_pos h]
  obtain ⟨hb1, hb2⟩ := atan2_bounds (ySum l) (xSum l)
  have hd1 : -180 < degreesR (atan2 (ySum l) (xSum l)) := neg_180_lt_degreesR hb1
  have hd2 : degreesR (atan2 (ySum l) (xSum l)) ≤ 180 := degreesR_le_180 hb2
  by_cases hc : 0 < 90 - degreesR (atan2 (ySum l) (xSum l))
  · rw [if_pos hc]
    exact ⟨_, rfl, hc, by linarith⟩
  · rw [if_neg hc]
    push_neg at hc
    exact ⟨_, rfl, by linarith, by linarith⟩

/-- C3 counterexample: the claim predicts that the three samples (10, north),
(10, east), (10, south) yield xSum = 0, ySum = 10 and a vector-average
bearing of 0 degrees, and that results are normalized to [0, 360).  On the
code, the buffer built from those samples has xSum = 10, ySum = 0 and
vector-average bearing 90 degrees (east); moreover a single due-north sample
yields bearing 360, which is outside [0, 360). -/
theorem c3_counterexample_three_samples :
    tenMinuteAverageWindDir bufThree.wind_dir_list = some 90 ∧
    (90 : ℝ) ≠ 0 ∧
    xSum bufThree.wind_dir_list ≠ 0 ∧
    ySum bufThree.wind_dir_list ≠ 10 ∧
    tenMinuteAverageWindDir bufNorth.wind_dir_list = some 360 ∧
    ¬ ((360 : ℝ) < 360) := by
  rw [bufThree_wdl, bufNorth_wdl]
  refine ⟨avgdir_three, by norm_num, ?_, ?_, avgdir_north, by norm_num⟩
  · rw [xSum_three]
    norm_num
  · rw [ySum_three]
    norm_num

/-- C3 (amended): for every non-empty retained set of directional samples the
vector-average direction is 90 - degrees(atan2(ySum, xSum)) normalized into
(0, 360] - due north surfaces as 360, not 0; the three specification samples
yield xSum = 10, ySum = 0 and a vector-average bearing of 90 degrees
(east). -/
theorem c3_vector_average_amended :
    xSum bufThree.wind_dir_list = 10 ∧
    ySum bufThree.wind_dir_list = 0 ∧
    tenMinuteAverageWindDir bufThree.wind_dir_list = some 90 ∧
    (∀ l : List (ℚ × ℚ × ℤ), 0 < l.length →
      ∃ d : ℝ, tenMinuteAverageWindDir l = some d ∧ 0 < d ∧ d ≤ 360) := by
  rw [bufThree_wdl]
  exact ⟨xSum_three, ySum_three, avgdir_three, avgdir_range⟩

/-- Witness for the amended C3 theorem at the singleton due-north buffer. -/
theorem c3_vector_average_amended_witness :
    0 < bufNorth.wind_dir_list.length ∧
    ∃ d : ℝ, tenMinuteAverageWindDir bufNorth.wind_dir_list = some d ∧
      0 < d ∧ d ≤ 360 :=
  ⟨by rw [bufNorth_wdl]; norm_num,
   c3_vector_average_amended.2.2.2 bufNorth.wind_dir_list
     (by rw [bufNorth_wdl]; norm_num)⟩

end Rtgd
